import Mathlib

set_option maxHeartbeats 1600000

/-! Verification of the Cognigy custom-module connectors (Jira, text
utilities, Azure Cognitive Services, Bing search, Yext, ServiceNow).

Each connector is modelled as a pure function from its arguments and a
mocked transport outcome to the effects it performs: the outbound HTTP
requests it issues, the context/input writes it makes, and how its
promise settles.  JavaScript values are embedded as `JValue`, with
explicit truthiness, property access, and the value-returning `&&` and
`||` operators, so that each connector body is a direct transcription
of the corresponding source function. -/

/-- JavaScript values, as far as the connectors inspect or build them. -/
inductive JValue where
  | jundefined
  | jnull
  | jbool (b : Bool)
  | jnum (n : Int)
  | jstr (s : String)
  | jarr (xs : List JValue)
  | jobj (fields : List (String × JValue))
deriving Repr

/-- JavaScript truthiness (`NaN` is not modelled; no connector produces it). -/
def truthy : JValue → Bool
  | .jundefined => false
  | .jnull => false
  | .jbool b => b
  | .jnum n => n != 0
  | .jstr s => s != ""
  | .jarr _ => true
  | .jobj _ => true

/-- Property access `v.k`.  Absent keys yield `undefined`.  On non-object
receivers the connectors either dereference values that are objects at
runtime (caught errors, parsed responses) or are guarded by `&&` chains;
primitive receivers yield `undefined` as in JavaScript.  The throwing
cases (`null`/`undefined` receivers) are handled explicitly at each use
site via `propThrows`. -/
def jGet (v : JValue) (k : String) : JValue :=
  match v with
  | .jobj fs =>
    match fs.find? (fun f => f.1 == k) with
    | some f => f.2
    | none => .jundefined
  | _ => .jundefined

/-- Whether a property access on this value raises a TypeError in JS. -/
def propThrows : JValue → Bool
  | .jundefined => true
  | .jnull => true
  | _ => false

/-- JavaScript `a && b` (value-returning, short-circuit). -/
def jand (a b : JValue) : JValue := if truthy a then b else a

/-- JavaScript `a || b` (value-returning, short-circuit). -/
def jor (a b : JValue) : JValue := if truthy a then a else b

mutual

/-- JavaScript string coercion, as used in template literals. -/
def jsDisplay : JValue → String
  | .jundefined => "undefined"
  | .jnull => "null"
  | .jbool b => if b then "true" else "false"
  | .jnum n => toString n
  | .jstr s => s
  | .jarr xs => jsDisplayList xs
  | .jobj _ => "[object Object]"

/-- `Array.prototype.toString`: elements joined by commas. -/
def jsDisplayList : List JValue → String
  | [] => ""
  | [x] => jsDisplay x
  | x :: xs => jsDisplay x ++ "," ++ jsDisplayList xs

end

/-- A Cognigy secret: the credential fields the connectors read.
`sInstance` models the source field called `instance` (a Lean keyword). -/
structure Secret where
  username : Option String := none
  password : Option String := none
  domain : Option String := none
  sInstance : Option String := none
  api_key : Option String := none
  key : Option String := none

/-- Truthiness of an optional string argument (absent ↦ `undefined`). -/
def oTruthy : Option String → Bool
  | none => false
  | some s => s != ""

/-- An optional string argument as the JS value the code passes around. -/
def jOfOptStr : Option String → JValue
  | none => .jundefined
  | some s => .jstr s

/-- Template-literal interpolation of an optional string argument. -/
def tmpl : Option String → String
  | none => "undefined"
  | some s => s

/-- The union of all per-connector argument records.  Every field is
optional; a connector reads only the fields its source signature
declares.  `data` and `limit` are JSON-valued in the source. -/
structure Args where
  secret : Option Secret := none
  summary : Option String := none
  projectId : Option String := none
  epicname : Option String := none
  description : Option String := none
  assignee : Option String := none
  ticket : Option String := none
  contextStore : Option String := none
  text : Option String := none
  language : Option String := none
  query : Option String := none
  term : Option String := none
  writeToContext : Option Bool := none
  store : Option String := none
  entity : Option String := none
  api_version : Option String := none
  tableName : Option String := none
  limit : Option JValue := none
  caller_id : Option String := none
  assigned_to : Option String := none
  data : Option JValue := none
  sysId : Option String := none
  tableSysId : Option String := none
  fileName : Option String := none
  fileLocation : Option String := none
  stopOnError : Option Bool := none

/-- `args.stopOnError` is truthy. -/
def soTrue (a : Args) : Bool :=
  match a.stopOnError with
  | some true => true
  | _ => false

/-- `secret.username` as read after destructuring. -/
def sUser (a : Args) : Option String := a.secret.bind Secret.username

def sPass (a : Args) : Option String := a.secret.bind Secret.password

def sDomain (a : Args) : Option String := a.secret.bind Secret.domain

def sInst (a : Args) : Option String := a.secret.bind Secret.sInstance

def sApiKey (a : Args) : Option String := a.secret.bind Secret.api_key

def sKey (a : Args) : Option String := a.secret.bind Secret.key

/-- Truthiness of an optional JSON argument. -/
def jOptTruthy : Option JValue → Bool
  | none => false
  | some v => truthy v

/-- Outcome of the connector's main transport call, as delivered by a
mocked transport.  `ok d` is a successful completion carrying the parsed
payload the code reads (for axios, `response.data`; for the raw https
connectors, the JSON-parsed body; for a node-style callback, the result
argument).  `err e` is a failing completion carrying the truthy error
value the code receives (an Error object or structured API error). -/
inductive Outcome where
  | ok (d : JValue)
  | err (e : JValue)

/-- The environment of one invocation: the mocked outcome of the main
transport call, the conversation input text (`input.input.text`), and
the response delivered by the extra `http.get(fileLocation)` performed
by the attachment-upload connector. -/
structure World where
  outcome : Outcome
  inputText : Option String := none
  fileResponse : JValue := .jundefined

/-- Where a connector writes its result: `input.actions.addToContext`,
a direct assignment into `input.context.getFullContext()`, or a direct
assignment into `input.input`. -/
inductive WTarget where
  | ctxAdd
  | ctxDirect
  | inputDirect
deriving Repr, DecidableEq

/-- One write of `value` into the slot named `slot` of the given target. -/
structure CWrite where
  target : WTarget
  slot : Option String
  value : JValue

/-- One outbound HTTP request (headers are not modelled; no claim
inspects them).  For the Bing connectors the source appends
`encodeURIComponent` of the query to the path; this is modelled as a
`q` query parameter. -/
structure HttpReq where
  method : String := "GET"
  url : String := ""
  params : List (String × JValue) := []
  body : JValue := .jundefined

/-- How the connector's returned promise settles.  `rejected v` covers
both `Promise.reject(v)`/`reject(v)` and a thrown `Error`, in which
case `v` is the error's message string. -/
inductive CallResult where
  | resolved
  | rejected (v : JValue)
  | pending

/-- The observable effects of one connector invocation. -/
structure Effects where
  calls : List HttpReq := []
  writes : List CWrite := []
  result : CallResult

/-- The source's validation pattern: a sequence of
`if (cond) throw/reject msg` checks; the first failing check wins. -/
def firstFail : List (Bool × String) → Option String
  | [] => none
  | c :: rest => if c.1 then some c.2 else firstFail rest

/-- The connectors of the repository, one constructor per exported
function. -/
inductive Conn where
  | createJiraTicket
  | extractTicket
  | getTicketStatus
  | getTicketAssignee
  | getTicketPriority
  | getTicketResolution
  | getTicketReporter
  | getTicketComments
  | getTicketWatchers
  | getTicketSummary
  | getAllTicketInfo
  | spellCheck
  | recognizeLanguage
  | extractKeyphrases
  | namedEntityRecognition
  | bingWebSearch
  | bingNewsSearch
  | bingImageSearch
  | textTranslator
  | GetEntity
  | GETFromTable
  | POSTToTable
  | PatchRecordInTable
  | DeleteFromTable
  | GETAttachments
  | GETAttachmentById
  | POSTAttachment
  | DeleteAttachment
deriving Repr, DecidableEq

/-- The Jira secret-field checks shared by the part_000 connectors. -/
def jiraSecretFieldChecks (a : Args) : List (Bool × String) :=
  [(!oTruthy (sUser a), "Secret is missing the 'username' field."),
   (!oTruthy (sPass a), "Secret is missing the 'password' field."),
   (!oTruthy (sDomain a), "Secret is missing the 'domain' field.")]

/-- The ServiceNow secret-field checks shared by the module.ts table and
attachment connectors. -/
def snowSecretFieldChecks (a : Args) : List (Bool × String) :=
  [(!oTruthy (sUser a), "Secret is missing the 'username' field."),
   (!oTruthy (sPass a), "Secret is missing the 'password' field."),
   (!oTruthy (sInst a), "Secret is missing the 'instance' field.")]

/-- The shared `validateArgs` helper of the Jira issue getters. -/
def validateArgsChecks (a : Args) : List (Bool × String) :=
  [(a.secret.isNone, "Secret not defined."),
   (!oTruthy a.ticket, "No ticket defined. Please define a ticket like AB-1234."),
   (!oTruthy a.contextStore, "Context store not defined."),
   (a.stopOnError.isNone, "Stop on error flag not defined.")] ++
  jiraSecretFieldChecks a

/-- The combined secret check of the part_001 connectors:
`!args.secret || !args.secret.key`. -/
def cogSecretBad (a : Args) : Bool := a.secret.isNone || !oTruthy (sKey a)

/-- Per-connector validation, transcribed check by check (same order,
same messages) from each source function. -/
def checks : Conn → Args → List (Bool × String)
  | .createJiraTicket, a =>
    [(a.secret.isNone, "Secret not defined."),
     (!oTruthy a.summary, "Summary not defined."),
     (!oTruthy a.projectId, "Project Id not defined."),
     (!oTruthy a.epicname, "Epicname not defined."),
     (!oTruthy a.description, "Description not defined."),
     (!oTruthy a.contextStore, "Context store not defined."),
     (a.stopOnError.isNone, "Stop on error flag not defined.")] ++
    jiraSecretFieldChecks a
  | .extractTicket, a =>
    [(!oTruthy a.contextStore, "Context store not defined."),
     (a.stopOnError.isNone, "Stop on error flag not defined.")]
  | .getTicketStatus, a => validateArgsChecks a
  | .getTicketAssignee, a => validateArgsChecks a
  | .getTicketPriority, a => validateArgsChecks a
  | .getTicketResolution, a => validateArgsChecks a
  | .getTicketReporter, a => validateArgsChecks a
  | .getTicketComments, a => validateArgsChecks a
  | .getTicketWatchers, a => validateArgsChecks a
  | .getTicketSummary, a => validateArgsChecks a
  | .getAllTicketInfo, a => validateArgsChecks a
  | .spellCheck, a =>
    [(cogSecretBad a, "Secret not defined or invalid."),
     (!oTruthy a.text, "No text defined.")]
  | .recognizeLanguage, a =>
    [(cogSecretBad a, "Secret not defined or invalid."),
     (!oTruthy a.text, "No text defined.")]
  | .extractKeyphrases, a =>
    [(cogSecretBad a, "Secret not defined or invalid."),
     (!oTruthy a.text, "No text defined.")]
  | .namedEntityRecognition, a =>
    [(cogSecretBad a, "Secret not defined or invalid."),
     (!oTruthy a.text, "No text defined.")]
  | .bingWebSearch, a =>
    [(cogSecretBad a, "Secret not defined or invalid."),
     (!oTruthy a.query, "No query defined.")]
  | .bingNewsSearch, a =>
    [(cogSecretBad a, "Secret not defined or invalid."),
     (!oTruthy a.term, "No news term defined.")]
  | .bingImageSearch, a =>
    [(cogSecretBad a, "Secret not defined or invalid."),
     (!oTruthy a.term, "No image term defined.")]
  | .textTranslator, a =>
    [(cogSecretBad a, "Secret not defined or invalid."),
     (!oTruthy a.text, "No text defined.")]
  | .GetEntity, a =>
    [(a.secret.isNone || !oTruthy (sApiKey a), "Secret not defined or invalid."),
     (!oTruthy a.entity, "No entity defined."),
     (!oTruthy a.api_version, "No version defined.")]
  | .GETFromTable, a =>
    [(a.secret.isNone, "Secret not defined."),
     (!oTruthy a.tableName, "Table name not defined."),
     (!oTruthy a.store, "Context store not defined."),
     (a.stopOnError.isNone, "Stop on error flag not defined.")] ++
    snowSecretFieldChecks a
  | .POSTToTable, a =>
    [(a.secret.isNone, "Secret not defined."),
     (!oTruthy a.tableName, "Table name not defined."),
     (!jOptTruthy a.data, "Data to post not defined."),
     (!oTruthy a.store, "Context store not defined."),
     (a.stopOnError.isNone, "Stop on error flag not defined.")] ++
    snowSecretFieldChecks a
  | .PatchRecordInTable, a =>
    [(a.secret.isNone, "Secret not defined."),
     (!oTruthy a.tableName, "Table name not defined."),
     (!jOptTruthy a.data, "Data to post not defined."),
     (!oTruthy a.sysId, "Sys Id not defined."),
     (!oTruthy a.store, "Context store not defined."),
     (a.stopOnError.isNone, "Stop on error flag not defined.")] ++
    snowSecretFieldChecks a
  | .DeleteFromTable, a =>
    [(a.secret.isNone, "Secret not defined."),
     (!oTruthy a.tableName, "Table name not defined."),
     (!oTruthy a.sysId, "Sys Id not defined."),
     (!oTruthy a.store, "Context store not defined."),
     (a.stopOnError.isNone, "Stop on error flag not defined.")] ++
    snowSecretFieldChecks a
  | .GETAttachments, a =>
    [(a.secret.isNone, "Secret not defined."),
     (!oTruthy a.store, "Context store not defined."),
     (a.stopOnError.isNone, "Stop on error flag not defined.")] ++
    snowSecretFieldChecks a
  | .GETAttachmentById, a =>
    [(a.secret.isNone, "Secret not defined."),
     (!oTruthy a.sysId, "Sys Id not defined."),
     (!oTruthy a.store, "Context store not defined."),
     (a.stopOnError.isNone, "Stop on error flag not defined.")] ++
    snowSecretFieldChecks a
  | .POSTAttachment, a =>
    [(a.secret.isNone, "Secret not defined."),
     (!oTruthy a.tableName, "Table name not defined."),
     (!oTruthy a.tableSysId, "Table sys Id not defined."),
     (!oTruthy a.fileName, "File name not defined."),
     (!oTruthy a.fileLocation, "File location not defined."),
     (!oTruthy a.store, "Context store not defined."),
     (a.stopOnError.isNone, "Stop on error flag not defined.")] ++
    snowSecretFieldChecks a
  | .DeleteAttachment, a =>
    [(a.secret.isNone, "Secret not defined."),
     (!oTruthy a.sysId, "Sys Id not defined."),
     (!oTruthy a.store, "Context store not defined."),
     (a.stopOnError.isNone, "Stop on error flag not defined.")] ++
    snowSecretFieldChecks a

/-- The Jira connector's error-message extraction:
`Array.isArray(error.errorMessages) ? error.errorMessages[0] : error.errorMessage`. -/
def jiraErrMsg (e : JValue) : JValue :=
  match jGet e "errorMessages" with
  | .jarr xs => xs.headD .jundefined
  | _ => jGet e "errorMessage"

/-- The request issued through the jira-connector client by `createIssue`. -/
def jiraCreateIssueReq : HttpReq := { method := "POST", url := "jira.issue.createIssue" }

/-- The request issued through the jira-connector client by `getIssue`. -/
def jiraGetIssueReq : HttpReq := { method := "GET", url := "jira.issue.getIssue" }

/-- `createJiraTicket` after validation: one `createIssue` call, then the
callback.  In the error branch with `stopOnError` false the code resolves
without returning, so control falls through and the success write runs as
well, storing the undefined `issue` over the error object. -/
def createJiraTicketBody (a : Args) (o : Outcome) : Effects :=
  match o with
  | .ok issue =>
    { calls := [jiraCreateIssueReq],
      writes := [⟨.ctxAdd, a.contextStore, issue⟩],
      result := .resolved }
  | .err e =>
    let errorMessage := jiraErrMsg e
    let fullMessage :=
      "Error: " ++ jsDisplay errorMessage ++ ". Please check your Cognigy Secret, too."
    if soTrue a then
      { calls := [jiraCreateIssueReq], writes := [],
        result := .rejected (.jstr fullMessage) }
    else
      { calls := [jiraCreateIssueReq],
        writes := [⟨.ctxAdd, a.contextStore, .jobj [("error", errorMessage)]⟩,
                   ⟨.ctxAdd, a.contextStore, .jundefined⟩],
        result := .resolved }

/-- The TypeError message raised by `undefined.match(...)` (the exact
wording is runtime dependent; no claim depends on it). -/
def matchOfUndefinedMsg : String := "Cannot read property 'match' of undefined"

/-- Letters accepted by the `[a-zA-Z]+-\d+` pattern of `extractTicket`. -/
def isLetterC (c : Char) : Bool := ('a' ≤ c && c ≤ 'z') || ('A' ≤ c && c ≤ 'Z')

/-- Digits accepted by the `[a-zA-Z]+-\d+` pattern of `extractTicket`. -/
def isDigitC (c : Char) : Bool := '0' ≤ c && c ≤ '9'

/-- Splits a list into its longest prefix of characters satisfying `p`
and the rest. -/
def spanP (p : Char → Bool) : List Char → List Char × List Char
  | [] => ([], [])
  | c :: cs =>
    if p c then
      let r := spanP p cs
      (c :: r.1, r.2)
    else ([], c :: cs)

/-- A match of `[a-zA-Z]+-\d+` anchored at the start of `s`: the maximal
letter run, a hyphen, then the maximal digit run (for this pattern a
shorter letter run can never help, since it would have to be followed by
a letter rather than the hyphen). -/
def matchAt (s : List Char) : Option (List Char) :=
  match spanP isLetterC s with
  | ([], _) => none
  | (ls, '-' :: rest) =>
    match spanP isDigitC rest with
    | ([], _) => none
    | (ds, _) => some (ls ++ '-' :: ds)
  | (_, _) => none

/-- The leftmost match of `[a-zA-Z]+-\d+` in `s`: what
`s.match(/[a-zA-Z]+-\d+/g)` returns at index 0. -/
def firstMatch : List Char → Option (List Char)
  | [] => none
  | c :: cs =>
    match matchAt (c :: cs) with
    | some m => some m
    | none => firstMatch cs

/-- `extractTicket` after validation: no network call; match the input
text and store the first match or the sentinel.  When `input.input.text`
is undefined, `.match` throws, the catch rethrows when `stopOnError` is
truthy and otherwise stores an error object. -/
def extractTicketBody (a : Args) (w : World) : Effects :=
  match w.inputText with
  | some t =>
    match firstMatch t.toList with
    | some m =>
      { writes := [⟨.ctxAdd, a.contextStore, .jstr (String.mk m)⟩], result := .resolved }
    | none =>
      { writes := [⟨.ctxAdd, a.contextStore, .jstr "No ticket found"⟩], result := .resolved }
  | none =>
    if soTrue a then { result := .rejected (.jstr matchOfUndefinedMsg) }
    else
      { writes := [⟨.ctxAdd, a.contextStore,
                    .jobj [("error", .jstr matchOfUndefinedMsg)]⟩],
        result := .resolved }

/-- The message rejected when a Jira `getIssue` returns no issue. -/
def noIssueMsg : String := "Error while getting Jira issue. No issue was found"

/-- The error branch shared verbatim by `processJiraIssue`,
`getTicketSummary` and `getAllTicketInfo`: a structured API error
(`error.errorMessages` truthy) respects `stopOnError`; any other error is
logged and rejected with a generic message regardless of `stopOnError`. -/
def jiraGetErrBranch (a : Args) (e : JValue) : Effects :=
  if truthy (jGet e "errorMessages") then
    if soTrue a then
      { calls := [jiraGetIssueReq], result := .rejected (jiraErrMsg e) }
    else
      { calls := [jiraGetIssueReq],
        writes := [⟨.ctxAdd, a.contextStore, .jobj [("error", jiraErrMsg e)]⟩],
        result := .resolved }
  else
    { calls := [jiraGetIssueReq],
      result := .rejected (.jstr "Error while getting Jira issue.") }

/-- The two-field projection built by `processJiraIssue`:
`{ ticket: issue.key || null, status: issue.fields && issue.fields[fieldName] || null }`. -/
def fieldProj (issue : JValue) (fieldName : String) : JValue :=
  .jobj [("ticket", jor (jGet issue "key") .jnull),
         ("status", jor (jand (jGet issue "fields") (jGet (jGet issue "fields") fieldName)) .jnull)]

/-- `processJiraIssue` after validation.  In the success branch a falsy
issue fires `reject` without returning; when the issue is `undefined` or
`null` the subsequent projection throws (caught, rejecting again as a
no-op), and for a falsy primitive the projection and write still run. -/
def processJiraIssue (a : Args) (fieldName : String) (o : Outcome) : Effects :=
  match o with
  | .err e => jiraGetErrBranch a e
  | .ok issue =>
    if truthy issue then
      { calls := [jiraGetIssueReq],
        writes := [⟨.ctxAdd, a.contextStore, fieldProj issue fieldName⟩],
        result := .resolved }
    else if propThrows issue then
      { calls := [jiraGetIssueReq], result := .rejected (.jstr noIssueMsg) }
    else
      { calls := [jiraGetIssueReq],
        writes := [⟨.ctxAdd, a.contextStore, fieldProj issue fieldName⟩],
        result := .rejected (.jstr noIssueMsg) }

/-- The eight-field projection built by `getTicketSummary`. -/
def summaryProj (issue : JValue) : JValue :=
  let f := jGet issue "fields"
  .jobj
    [("ticket", jor (jGet issue "key") .jnull),
     ("type", jor (jand (jand f (jGet f "issuetype")) (jGet (jGet f "issuetype") "name")) .jnull),
     ("project", jor (jand (jand f (jGet f "project")) (jGet (jGet f "project") "name")) .jnull),
     ("status", jor (jand (jand f (jGet f "status")) (jGet (jGet f "status") "name")) .jnull),
     ("assignedTo", jor (jand (jand f (jGet f "assignee")) (jGet (jGet f "assignee") "emailAddress")) .jnull),
     ("reportedBy", jor (jand (jand f (jGet f "reporter")) (jGet (jGet f "reporter") "emailAddress")) .jnull),
     ("resolution", jor (jand (jand f (jGet f "resolution")) (jGet (jGet f "resolution") "name")) .jnull),
     ("comments", jor (jand (jand f (jGet f "comment")) (jGet (jGet f "comment") "comments")) .jnull)]

/-- `getTicketSummary` after validation.  Its empty-result rejection is a
bare `Promise.reject` that is never propagated; when the issue is
`undefined`/`null` the first projection line throws, the catch only logs
(and builds another unpropagated rejection), and the partially built
(empty) result object is stored and the promise resolves. -/
def getTicketSummaryBody (a : Args) (o : Outcome) : Effects :=
  match o with
  | .err e => jiraGetErrBranch a e
  | .ok issue =>
    if propThrows issue then
      { calls := [jiraGetIssueReq],
        writes := [⟨.ctxAdd, a.contextStore, .jobj []⟩], result := .resolved }
    else
      { calls := [jiraGetIssueReq],
        writes := [⟨.ctxAdd, a.contextStore, summaryProj issue⟩], result := .resolved }

/-- `getAllTicketInfo` after validation.  A falsy issue fires `reject`
without returning, so the write of the falsy issue and the (no-op)
resolve still run. -/
def getAllTicketInfoBody (a : Args) (o : Outcome) : Effects :=
  match o with
  | .err e => jiraGetErrBranch a e
  | .ok issue =>
    if truthy issue then
      { calls := [jiraGetIssueReq],
        writes := [⟨.ctxAdd, a.contextStore, issue⟩], result := .resolved }
    else
      { calls := [jiraGetIssueReq],
        writes := [⟨.ctxAdd, a.contextStore, issue⟩],
        result := .rejected (.jstr noIssueMsg) }

/-- Write target selected by `args.writeToContext` in the part_001
connectors that offer the choice. -/
def tgtOf (a : Args) : WTarget :=
  match a.writeToContext with
  | some true => .ctxDirect
  | _ => .inputDirect

/-- The response handler shared by the four cognitive-text connectors:
`end` parses the body and stores it; the `error` event respects
`stopOnError` and otherwise stores `{ error: err.message }`. -/
def streamHandler (a : Args) (req : HttpReq) (o : Outcome) : Effects :=
  match o with
  | .ok d =>
    { calls := [req], writes := [⟨tgtOf a, a.store, d⟩], result := .resolved }
  | .err e =>
    if soTrue a then { calls := [req], result := .rejected (jGet e "message") }
    else
      { calls := [req],
        writes := [⟨tgtOf a, a.store, .jobj [("error", jGet e "message")]⟩],
        result := .resolved }

/-- The `spellCheck` request: POST with the market query string and a
form-encoded body. -/
def spellCheckReq (a : Args) : HttpReq :=
  { method := "POST",
    url := "api.cognitive.microsoft.com/bing/v7.0/spellcheck?mkt=" ++
           tmpl a.language ++ "&mode=proof",
    body := .jstr ("text=" ++ tmpl a.text) }

/-- The one-document body sent by `recognizeLanguage`. -/
def docsNoLang (a : Args) : JValue :=
  .jobj [("documents", .jarr [.jobj [("id", .jstr "1"), ("text", jOfOptStr a.text)]])]

/-- The one-document body (with language) sent by `extractKeyphrases`
and `namedEntityRecognition`. -/
def docsWithLang (a : Args) : JValue :=
  .jobj [("documents",
          .jarr [.jobj [("id", .jstr "1"), ("language", jOfOptStr a.language),
                        ("text", jOfOptStr a.text)]])]

def recognizeLanguageReq (a : Args) : HttpReq :=
  { method := "POST",
    url := "westus.api.cognitive.microsoft.com/text/analytics/v2.0/languages",
    body := docsNoLang a }

def extractKeyphrasesReq (a : Args) : HttpReq :=
  { method := "POST",
    url := "westus.api.cognitive.microsoft.com/text/analytics/v2.0/keyPhrases",
    body := docsWithLang a }

def namedEntityRecognitionReq (a : Args) : HttpReq :=
  { method := "POST",
    url := "westus.api.cognitive.microsoft.com/text/analytics/v2.1-preview/entities",
    body := docsWithLang a }

/-- A Bing search GET; the source appends `encodeURIComponent` of the
query to the path, modelled here as the `q` parameter. -/
def bingReq (path : String) (q : Option String) : HttpReq :=
  { method := "GET", url := "api.cognitive.microsoft.com" ++ path,
    params := [("q", jOfOptStr q)] }

/-- `bingWebSearch` after validation: stores into `input.input` directly;
its `error` listener respects `stopOnError`. -/
def bingWebSearchBody (a : Args) (o : Outcome) : Effects :=
  match o with
  | .ok d =>
    { calls := [bingReq "/bing/v7.0/search" a.query],
      writes := [⟨.inputDirect, a.store, d⟩], result := .resolved }
  | .err e =>
    if soTrue a then
      { calls := [bingReq "/bing/v7.0/search" a.query],
        result := .rejected (jGet e "message") }
    else
      { calls := [bingReq "/bing/v7.0/search" a.query],
        writes := [⟨.inputDirect, a.store, .jobj [("error", jGet e "message")]⟩],
        result := .resolved }

/-- `bingNewsSearch` after validation: its response handler registers
only `data` and `end` listeners, so on a transport error nothing runs
and the promise never settles. -/
def bingNewsSearchBody (a : Args) (o : Outcome) : Effects :=
  match o with
  | .ok d =>
    { calls := [bingReq "/bing/v7.0/news/search" a.term],
      writes := [⟨.inputDirect, a.store, d⟩], result := .resolved }
  | .err _ =>
    { calls := [bingReq "/bing/v7.0/news/search" a.term], result := .pending }

/-- `bingImageSearch` after validation: same shape as `bingNewsSearch`,
with no error listener. -/
def bingImageSearchBody (a : Args) (o : Outcome) : Effects :=
  match o with
  | .ok d =>
    { calls := [bingReq "/bing/v7.0/images/search" a.term],
      writes := [⟨.inputDirect, a.store, d⟩], result := .resolved }
  | .err _ =>
    { calls := [bingReq "/bing/v7.0/images/search" a.term], result := .pending }

/-- The `textTranslator` request (the random `X-ClientTraceId` header is
not modelled). -/
def textTranslatorReq (a : Args) : HttpReq :=
  { method := "POST", url := "api.cognitive.microsofttranslator.com/translate",
    params := [("api-version", .jstr "3.0"), ("to", jOfOptStr a.language)],
    body := .jarr [.jobj [("text", jOfOptStr a.text)]] }

/-- `textTranslator` after validation: the request callback ignores its
error argument entirely and always stores the body (undefined when the
transport failed), then resolves; `stopOnError` is never consulted. -/
def textTranslatorBody (a : Args) (o : Outcome) : Effects :=
  match o with
  | .ok b =>
    { calls := [textTranslatorReq a], writes := [⟨tgtOf a, a.store, b⟩],
      result := .resolved }
  | .err _ =>
    { calls := [textTranslatorReq a], writes := [⟨tgtOf a, a.store, .jundefined⟩],
      result := .resolved }

/-- The Yext `GetEntity` request URL, interpolated as in the source. -/
def getEntityReq (a : Args) : HttpReq :=
  { method := "GET",
    url := "https://api.yext.com/v2/accounts/me/" ++ (tmpl a.entity).toLower ++
           "?api_key=" ++ tmpl (sApiKey a) ++ "&v=" ++ tmpl a.api_version }

/-- `GetEntity` after validation (the `input.actions.output` echo of the
entity name is not a store write and is not modelled).  In the catch
branch with `stopOnError` falsy, the error object is assigned to the
local `result` variable but never written anywhere before resolving. -/
def getEntityBody (a : Args) (o : Outcome) : Effects :=
  match o with
  | .ok d =>
    { calls := [getEntityReq a], writes := [⟨.ctxDirect, a.store, d⟩],
      result := .resolved }
  | .err e =>
    if soTrue a then
      { calls := [getEntityReq a], result := .rejected (jGet e "message") }
    else
      { calls := [getEntityReq a], result := .resolved }

/-- The catch branch shared by the ServiceNow table and attachment
connectors: rethrow when `stopOnError`, else store `{ error: message }`. -/
def snCatch (a : Args) (reqs : List HttpReq) (e : JValue) : Effects :=
  if soTrue a then { calls := reqs, result := .rejected (jGet e "message") }
  else
    { calls := reqs,
      writes := [⟨.ctxAdd, a.store, .jobj [("error", jGet e "message")]⟩],
      result := .resolved }

/-- The `GETFromTable` request: the params object always carries the
`sysparm_limit`, `caller_id`, `sysparm_query` and `sysparm_display_value`
keys, and gains `assigned_to` when that argument is truthy. -/
def getFromTableReq (a : Args) : HttpReq :=
  { method := "GET",
    url := tmpl (sInst a) ++ "/api/now/table/" ++ tmpl a.tableName,
    params :=
      [("sysparm_limit", (a.limit).getD .jundefined),
       ("caller_id", jOfOptStr a.caller_id),
       ("sysparm_query", .jstr "ORDERBYDESCnumber"),
       ("sysparm_display_value", .jbool true)] ++
      (if oTruthy a.assigned_to then [("assigned_to", jOfOptStr a.assigned_to)] else []) }

/-- `GETFromTable` after validation: stores `response.data.result`. -/
def GETFromTableBody (a : Args) (o : Outcome) : Effects :=
  match o with
  | .ok d =>
    { calls := [getFromTableReq a],
      writes := [⟨.ctxAdd, a.store, jGet d "result"⟩], result := .resolved }
  | .err e => snCatch a [getFromTableReq a] e

def postToTableReq (a : Args) : HttpReq :=
  { method := "POST",
    url := tmpl (sInst a) ++ "/api/now/table/" ++ tmpl a.tableName,
    body := (a.data).getD .jundefined }

/-- `POSTToTable` after validation: stores `response.data.result`. -/
def POSTToTableBody (a : Args) (o : Outcome) : Effects :=
  match o with
  | .ok d =>
    { calls := [postToTableReq a],
      writes := [⟨.ctxAdd, a.store, jGet d "result"⟩], result := .resolved }
  | .err e => snCatch a [postToTableReq a] e

def patchRecordReq (a : Args) : HttpReq :=
  { method := "PATCH",
    url := tmpl (sInst a) ++ "/api/now/table/" ++ tmpl a.tableName ++ "/" ++ tmpl a.sysId,
    body := (a.data).getD .jundefined }

/-- `PatchRecordInTable` after validation: stores `response.data.result`. -/
def PatchRecordInTableBody (a : Args) (o : Outcome) : Effects :=
  match o with
  | .ok d =>
    { calls := [patchRecordReq a],
      writes := [⟨.ctxAdd, a.store, jGet d "result"⟩], result := .resolved }
  | .err e => snCatch a [patchRecordReq a] e

def deleteFromTableReq (a : Args) : HttpReq :=
  { method := "DELETE",
    url := tmpl (sInst a) ++ "/api/now/table/" ++ tmpl a.tableName ++ "/" ++ tmpl a.sysId }

/-- `DeleteFromTable` after validation: stores a literal confirmation
string interpolating the sys id. -/
def DeleteFromTableBody (a : Args) (o : Outcome) : Effects :=
  match o with
  | .ok _ =>
    { calls := [deleteFromTableReq a],
      writes := [⟨.ctxAdd, a.store,
                  .jstr ("succefully deleted entry with id: " ++ tmpl a.sysId)⟩],
      result := .resolved }
  | .err e => snCatch a [deleteFromTableReq a] e

def getAttachmentsReq (a : Args) : HttpReq :=
  { method := "GET",
    url := tmpl (sInst a) ++ "/api/now/attachment",
    params := [("sysparm_limit", (a.limit).getD .jundefined),
               ("sysparm_query", jOfOptStr a.query)] }

/-- `GETAttachments` after validation: stores `response.data.result`. -/
def GETAttachmentsBody (a : Args) (o : Outcome) : Effects :=
  match o with
  | .ok d =>
    { calls := [getAttachmentsReq a],
      writes := [⟨.ctxAdd, a.store, jGet d "result"⟩], result := .resolved }
  | .err e => snCatch a [getAttachmentsReq a] e

def getAttachmentByIdReq (a : Args) : HttpReq :=
  { method := "GET",
    url := tmpl (sInst a) ++ "/api/now/attachment/" ++ tmpl a.sysId }

/-- `GETAttachmentById` after validation: stores `response.data.result`. -/
def GETAttachmentByIdBody (a : Args) (o : Outcome) : Effects :=
  match o with
  | .ok d =>
    { calls := [getAttachmentByIdReq a],
      writes := [⟨.ctxAdd, a.store, jGet d "result"⟩], result := .resolved }
  | .err e => snCatch a [getAttachmentByIdReq a] e

/-- The preliminary file fetch of `POSTAttachment`: `http.get(fileLocation)`
resolved with whatever response arrives (no error listener). -/
def postAttachmentFileReq (a : Args) : HttpReq :=
  { method := "GET", url := tmpl a.fileLocation }

/-- The upload of `POSTAttachment`, forwarding the fetched file. -/
def postAttachmentReq (a : Args) (w : World) : HttpReq :=
  { method := "POST",
    url := tmpl (sInst a) ++ "/api/now/attachment/file",
    params := [("table_name", jOfOptStr a.tableName),
               ("table_sys_id", jOfOptStr a.tableSysId),
               ("file_name", jOfOptStr a.fileName)],
    body := w.fileResponse }

/-- `POSTAttachment` after validation: two outbound calls (the file
fetch, then the upload); stores `post.data.result`. -/
def POSTAttachmentBody (a : Args) (w : World) : Effects :=
  match w.outcome with
  | .ok d =>
    { calls := [postAttachmentFileReq a, postAttachmentReq a w],
      writes := [⟨.ctxAdd, a.store, jGet d "result"⟩], result := .resolved }
  | .err e => snCatch a [postAttachmentFileReq a, postAttachmentReq a w] e

def deleteAttachmentReq (a : Args) : HttpReq :=
  { method := "DELETE",
    url := tmpl (sInst a) ++ "/api/now/attachment/" ++ tmpl a.sysId }

/-- `DeleteAttachment` after validation: stores a literal confirmation
string interpolating the sys id. -/
def DeleteAttachmentBody (a : Args) (o : Outcome) : Effects :=
  match o with
  | .ok _ =>
    { calls := [deleteAttachmentReq a],
      writes := [⟨.ctxAdd, a.store,
                  .jstr ("succefully deleted attachment with id: " ++ tmpl a.sysId)⟩],
      result := .resolved }
  | .err e => snCatch a [deleteAttachmentReq a] e

/-- Dispatch to the per-connector body (what runs once validation has
passed). -/
def connBody (c : Conn) (a : Args) (w : World) : Effects :=
  match c with
  | .createJiraTicket => createJiraTicketBody a w.outcome
  | .extractTicket => extractTicketBody a w
  | .getTicketStatus => processJiraIssue a "status" w.outcome
  | .getTicketAssignee => processJiraIssue a "assignee" w.outcome
  | .getTicketPriority => processJiraIssue a "priority" w.outcome
  | .getTicketResolution => processJiraIssue a "resolution" w.outcome
  | .getTicketReporter => processJiraIssue a "reporter" w.outcome
  | .getTicketComments => processJiraIssue a "comment" w.outcome
  | .getTicketWatchers => processJiraIssue a "watches" w.outcome
  | .getTicketSummary => getTicketSummaryBody a w.outcome
  | .getAllTicketInfo => getAllTicketInfoBody a w.outcome
  | .spellCheck => streamHandler a (spellCheckReq a) w.outcome
  | .recognizeLanguage => streamHandler a (recognizeLanguageReq a) w.outcome
  | .extractKeyphrases => streamHandler a (extractKeyphrasesReq a) w.outcome
  | .namedEntityRecognition => streamHandler a (namedEntityRecognitionReq a) w.outcome
  | .bingWebSearch => bingWebSearchBody a w.outcome
  | .bingNewsSearch => bingNewsSearchBody a w.outcome
  | .bingImageSearch => bingImageSearchBody a w.outcome
  | .textTranslator => textTranslatorBody a w.outcome
  | .GetEntity => getEntityBody a w.outcome
  | .GETFromTable => GETFromTableBody a w.outcome
  | .POSTToTable => POSTToTableBody a w.outcome
  | .PatchRecordInTable => PatchRecordInTableBody a w.outcome
  | .DeleteFromTable => DeleteFromTableBody a w.outcome
  | .GETAttachments => GETAttachmentsBody a w.outcome
  | .GETAttachmentById => GETAttachmentByIdBody a w.outcome
  | .POSTAttachment => POSTAttachmentBody a w
  | .DeleteAttachment => DeleteAttachmentBody a w.outcome

/-- One connector invocation: run the source's validation sequence, and
on the first failing check reject with its message (issuing no request
and writing nothing); otherwise run the connector body against the
mocked transport. -/
def runConn (c : Conn) (a : Args) (w : World) : Effects :=
  match firstFail (checks c a) with
  | some m => { result := .rejected (.jstr m) }
  | none => connBody c a w

/-- `u` occurs as a contiguous substring of `s`. -/
def occursIn (u s : List Char) : Prop := ∃ l r, s = l ++ u ++ r

/-- The shape matched by the source pattern `[a-zA-Z]+-\d+`: a nonempty
run of letters of either case, a hyphen, and a nonempty run of digits. -/
def TicketShapeL (t : List Char) : Prop :=
  ∃ ls ds, t = ls ++ '-' :: ds ∧ ls ≠ [] ∧ ds ≠ [] ∧
    (∀ c ∈ ls, isLetterC c = true) ∧ (∀ c ∈ ds, isDigitC c = true)

lemma spanP_append_eq (p : Char → Bool) (l : List Char) :
    (spanP p l).1 ++ (spanP p l).2 = l := by
  induction l with
  | nil => rfl
  | cons c cs ih =>
    by_cases h : p c
    · simp [spanP, h, ih]
    · simp [spanP, h]

lemma spanP_fst_all (p : Char → Bool) (l : List Char) :
    ∀ c ∈ (spanP p l).1, p c = true := by
  induction l with
  | nil => intro c hc; simp [spanP] at hc
  | cons x xs ih =>
    intro c hc
    by_cases h : p x
    · simp [spanP, h] at hc
      rcases hc with rfl | hc
      · exact h
      · exact ih c hc
    · simp [spanP, h] at hc

lemma spanP_snd_head (p : Char → Bool) (l : List Char) (c : Char) (cs : List Char)
    (h : (spanP p l).2 = c :: cs) : p c = false := by
  induction l with
  | nil => simp [spanP] at h
  | cons x xs ih =>
    by_cases hx : p x
    · simp [spanP, hx] at h
      exact ih h
    · simp [spanP, hx] at h
      obtain ⟨rfl, -⟩ := h
      simp [hx]

lemma spanP_of_split (p : Char → Bool) (l₁ l₂ : List Char)
    (h₁ : ∀ c ∈ l₁, p c = true)
    (h₂ : ∀ c cs, l₂ = c :: cs → p c = false) :
    spanP p (l₁ ++ l₂) = (l₁, l₂) := by
  induction l₁ with
  | nil =>
    cases l₂ with
    | nil => rfl
    | cons c cs => simp [spanP, h₂ c cs rfl]
  | cons x xs ih =>
    have hx : p x = true := h₁ x (by simp)
    have ihx := ih (fun c hc => h₁ c (by simp [hc]))
    simp [spanP, hx, ihx]

/-- Soundness of the anchored matcher: any match is ticket-shaped and a
prefix of the scanned list. -/
lemma matchAt_sound (s m : List Char) (h : matchAt s = some m) :
    TicketShapeL m ∧ ∃ r, s = m ++ r := by
  unfold matchAt at h
  split at h
  · exact absurd h (by simp)
  · rename_i p1 ls rest hne1 hsp
    split at h
    · exact absurd h (by simp)
    · rename_i p2 ds rest2 hne2 hsd
      simp only [Option.some.injEq] at h
      subst h
      constructor
      · refine ⟨ls, ds, rfl, hne1, hne2, ?_, ?_⟩
        · intro c hc
          have hall := spanP_fst_all isLetterC s
          rw [hsp] at hall
          exact hall c hc
        · intro c hc
          have hall := spanP_fst_all isDigitC rest
          rw [hsd] at hall
          exact hall c hc
      · refine ⟨rest2, ?_⟩
        have h1 : s = ls ++ '-' :: rest := by
          conv_lhs => rw [← spanP_append_eq isLetterC s]
          rw [hsp]
        have h2 : rest = ds ++ rest2 := by
          conv_lhs => rw [← spanP_append_eq isDigitC rest]
          rw [hsd]
        rw [h1, h2]
        simp
  · exact absurd h (by simp)

/-- Completeness of the anchored matcher: if a ticket-shaped list is a
prefix of `s`, the matcher succeeds on `s`. -/
lemma matchAt_complete (s t : List Char) (hsh : TicketShapeL t)
    (hp : ∃ r, s = t ++ r) : ∃ m, matchAt s = some m := by
  obtain ⟨ls, ds, rfl, hls, hds, hlet, hdig⟩ := hsh
  obtain ⟨r, rfl⟩ := hp
  have hsp : spanP isLetterC (ls ++ '-' :: ds ++ r) = (ls, '-' :: (ds ++ r)) := by
    have hbase := spanP_of_split isLetterC ls ('-' :: (ds ++ r)) hlet
      (by intro c cs hc; cases hc; rfl)
    simpa using hbase
  obtain ⟨d, dtl, hdsp⟩ : ∃ d dtl, (spanP isDigitC (ds ++ r)).1 = d :: dtl := by
    cases hds2 : ds with
    | nil => exact absurd hds2 hds
    | cons d ds2 =>
      have hd : isDigitC d = true := hdig d (by simp [hds2])
      exact ⟨d, (spanP isDigitC (ds2 ++ r)).1, by simp [hds2, spanP, hd]⟩
  obtain ⟨a, ltl, rfl⟩ : ∃ a ltl, ls = a :: ltl := by
    cases ls with
    | nil => exact absurd rfl hls
    | cons a ltl => exact ⟨a, ltl, rfl⟩
  refine ⟨(a :: ltl) ++ '-' :: (spanP isDigitC (ds ++ r)).1, ?_⟩
  unfold matchAt
  rw [hsp]
  have hpair : spanP isDigitC (ds ++ r) = (d :: dtl, (spanP isDigitC (ds ++ r)).2) := by
    rw [← hdsp]
  rw [hpair]
  simp [hdsp]

/-- Soundness of the scanner: the first match is ticket-shaped and
occurs as a substring of the scanned list. -/
lemma firstMatch_sound (s m : List Char) (h : firstMatch s = some m) :
    TicketShapeL m ∧ occursIn m s := by
  induction s with
  | nil => simp [firstMatch] at h
  | cons c cs ih =>
    simp only [firstMatch] at h
    cases hma : matchAt (c :: cs) with
    | some m2 =>
      rw [hma] at h
      simp only [Option.some.injEq] at h
      subst h
      obtain ⟨hsh, r, hpre⟩ := matchAt_sound _ _ hma
      exact ⟨hsh, [], r, by simpa using hpre⟩
    | none =>
      rw [hma] at h
      obtain ⟨hsh, l, r, hocc⟩ := ih h
      exact ⟨hsh, c :: l, r, by simp [hocc]⟩

/-- Completeness of the scanner: if a ticket-shaped substring occurs
anywhere in `s`, the scanner finds a (leftmost) match. -/
lemma firstMatch_complete (s t : List Char) (hsh : TicketShapeL t)
    (hocc : occursIn t s) : firstMatch s ≠ none := by
  induction s with
  | nil =>
    obtain ⟨l, r, hl⟩ := hocc
    obtain ⟨ls, ds, rfl, -, -, -, -⟩ := hsh
    have hlen := congrArg List.length hl
    simp [List.length_append] at hlen
    omega
  | cons c cs ih =>
    obtain ⟨l, r, hl⟩ := hocc
    cases l with
    | nil =>
      obtain ⟨m, hm⟩ := matchAt_complete (c :: cs) t hsh ⟨r, by simpa using hl⟩
      simp [firstMatch, hm]
    | cons x l2 =>
      simp only [List.cons_append, List.cons.injEq] at hl
      obtain ⟨-, hcs⟩ := hl
      have hrec := ih ⟨l2, r, hcs⟩
      simp only [firstMatch]
      cases hma : matchAt (c :: cs) with
      | some m => simp
      | none => simpa using hrec

lemma firstFail_of_any (l : List (Bool × String)) (h : l.any (fun c => c.1) = true) :
    ∃ m, firstFail l = some m := by
  induction l with
  | nil => simp at h
  | cons c rest ih =>
    by_cases hc : c.1 = true
    · exact ⟨c.2, by simp [firstFail, hc]⟩
    · simp only [List.any_cons, Bool.or_eq_true] at h
      obtain ⟨m, hm⟩ := ih (h.resolve_left hc)
      exact ⟨m, by simp [firstFail, hc, hm]⟩

/-- Some check of the connector's validation sequence fires on these
arguments: a field the source declares required (by checking it) is
missing or falsy. -/
def requiredFalsy (c : Conn) (a : Args) : Bool := (checks c a).any (fun ch => ch.1)

/-- When any validation check fires, the invocation performs no HTTP
call, makes no write, and rejects with the first failing check's
message, whatever the rest of the arguments (in particular whatever
`stopOnError` holds). -/
lemma validation_rejects (c : Conn) (a : Args) (w : World)
    (h : requiredFalsy c a = true) :
    (runConn c a w).calls = [] ∧ (runConn c a w).writes = [] ∧
    ∃ m, firstFail (checks c a) = some m ∧
      (runConn c a w).result = .rejected (.jstr m) := by
  obtain ⟨m, hm⟩ := firstFail_of_any _ h
  refine ⟨?_, ?_, m, hm, ?_⟩ <;> simp [runConn, hm]

/-- The connectors whose validation sequence contains the explicit
`stopOnError === undefined` check (the Jira file and the ServiceNow
table/attachment connectors); the Yext, cognitive-text, Bing and
translator connectors have no such check. -/
def checksStopOnError : Conn → Bool
  | .createJiraTicket | .extractTicket
  | .getTicketStatus | .getTicketAssignee | .getTicketPriority
  | .getTicketResolution | .getTicketReporter | .getTicketComments
  | .getTicketWatchers | .getTicketSummary | .getAllTicketInfo
  | .GETFromTable | .POSTToTable | .PatchRecordInTable | .DeleteFromTable
  | .GETAttachments | .GETAttachmentById | .POSTAttachment
  | .DeleteAttachment => true
  | _ => false

/-- Uppercase Latin letters. -/
def isUpperLetter (c : Char) : Bool := 'A' ≤ c && c ≤ 'Z'

/-- Modelled from the spec wording for the text-pattern extractor: a
token consisting of an UPPERCASE-letter prefix, a hyphen, and digits
(the source pattern, by contrast, accepts letters of either case). -/
def specUppercaseToken (t : List Char) : Bool :=
  match spanP isUpperLetter t with
  | ([], _) => false
  | (_, '-' :: ds) => !ds.isEmpty && ds.all isDigitC
  | (_, _) => false

/-- Per-body bounds: every connector body issues at most two requests
(two only in the attachment upload) and makes at most two writes (two
only in `createJiraTicket`). -/
lemma connBody_bounds (c : Conn) (a : Args) (w : World) :
    ((connBody c a w).calls.length ≤ 2 ∧ (connBody c a w).writes.length ≤ 2) ∧
    (c ≠ .POSTAttachment → (connBody c a w).calls.length ≤ 1) ∧
    (c ≠ .createJiraTicket → (connBody c a w).writes.length ≤ 1) := by
  cases c <;>
    simp only [connBody, createJiraTicketBody, extractTicketBody, processJiraIssue,
      jiraGetErrBranch, getTicketSummaryBody, getAllTicketInfoBody, streamHandler,
      bingWebSearchBody, bingNewsSearchBody, bingImageSearchBody, textTranslatorBody,
      getEntityBody, snCatch, GETFromTableBody, POSTToTableBody, PatchRecordInTableBody,
      DeleteFromTableBody, GETAttachmentsBody, GETAttachmentByIdBody, POSTAttachmentBody,
      DeleteAttachmentBody] <;>
    (repeat' split) <;> simp

/-- A transport failure whose caught Error object carries a typical
non-empty message. -/
def netErr : JValue := .jobj [("message", .jstr "getaddrinfo ENOTFOUND api.example.com")]

/-- Valid arguments for the Yext `GetEntity` connector, with
`stopOnError` explicitly false. -/
def yextArgs : Args :=
  { secret := some { api_key := some "key123" }, entity := some "Events",
    api_version := some "20190424", store := some "yextResult",
    stopOnError := some false }

/-- Valid arguments for `textTranslator`, with `stopOnError` true. -/
def translatorArgs : Args :=
  { secret := some { key := some "subkey" }, text := some "hello",
    language := some "de", writeToContext := some false,
    store := some "translation", stopOnError := some true }

/-- Valid arguments for `bingNewsSearch`, with `stopOnError` true. -/
def bingNewsArgs : Args :=
  { secret := some { key := some "subkey" }, term := some "lean theorem proving",
    store := some "news", stopOnError := some true }

/-- Valid arguments for `createJiraTicket`, with `stopOnError` false. -/
def jiraCreateArgs : Args :=
  { secret := some { username := some "u", password := some "p",
                     domain := some "jira.example.com" },
    summary := some "s", projectId := some "PRJ", epicname := some "E",
    description := some "d", contextStore := some "ticket",
    stopOnError := some false }

/-- Valid arguments for `POSTAttachment`. -/
def postAttachmentArgs : Args :=
  { secret := some { username := some "u", password := some "p",
                     sInstance := some "https://now.example.com" },
    tableName := some "incident", tableSysId := some "abc123",
    fileName := some "attachment.docx",
    fileLocation := some "https://files.example.com/attachment.docx",
    store := some "upload", stopOnError := some false }

/-- A structured Jira API error with an `errorMessages` array. -/
def jiraApiErr : JValue :=
  .jobj [("errorMessages", .jarr [.jstr "Issue does not exist"])]

/-- C1: the claim fails on the code.  For the Yext `GetEntity` connector
with `stopOnError := false` and a failing transport call, the invocation
completes normally but nothing at all is written to the configured
store: the catch branch assigns the `{ error: message }` object to a
local variable and resolves without storing it. -/
theorem getEntity_swallowed_error_writes_nothing :
    (runConn .GetEntity yextArgs { outcome := .err netErr }).writes = [] ∧
    (runConn .GetEntity yextArgs { outcome := .err netErr }).result = .resolved :=
  ⟨rfl, rfl⟩

/-- C2: the claim fails on the code.  `textTranslator` with
`stopOnError := true` never consults the flag on a transport failure: it
resolves normally and writes the undefined response body into the
configured store; and `bingNewsSearch` with `stopOnError := true` never
settles at all on a transport failure (no abort), making no write. -/
theorem textTranslator_ignores_stopOnError_on_failure :
    (runConn .textTranslator translatorArgs { outcome := .err netErr }).result = .resolved ∧
    (runConn .textTranslator translatorArgs { outcome := .err netErr }).writes =
      [⟨.inputDirect, some "translation", .jundefined⟩] ∧
    (runConn .bingNewsSearch bingNewsArgs { outcome := .err netErr }).result = .pending ∧
    (runConn .bingNewsSearch bingNewsArgs { outcome := .err netErr }).writes = [] :=
  ⟨rfl, rfl, rfl, rfl⟩

/-- C3: the claim as stated is false.  `POSTAttachment` performs two
outbound HTTP calls in one successful invocation (the file fetch and
the upload), and `createJiraTicket` in its swallowed-error path
performs two context writes, the second overwriting the error object
with the undefined issue. -/
theorem postAttachment_two_calls_createJira_two_writes :
    (runConn .POSTAttachment postAttachmentArgs
      { outcome := .ok (.jobj [("result", .jobj [])]) }).calls.length = 2 ∧
    (runConn .createJiraTicket jiraCreateArgs
      { outcome := .err jiraApiErr }).writes.length = 2 ∧
    (runConn .createJiraTicket jiraCreateArgs { outcome := .err jiraApiErr }).writes =
      [⟨.ctxAdd, some "ticket", .jobj [("error", .jstr "Issue does not exist")]⟩,
       ⟨.ctxAdd, some "ticket", .jundefined⟩] :=
  ⟨rfl, rfl, rfl⟩

/-- C3 (amended): every invocation performs at most two outbound HTTP
calls — only the attachment-upload connector `POSTAttachment` ever
performs two (its file fetch, then the upload); every other connector
performs at most one — and at most two context writes — only
`createJiraTicket` (in its swallowed-error path) ever performs two,
the second overwriting the first; every other connector writes at most
once, after outcome classification. -/
theorem invocation_call_and_write_bounds (c : Conn) (a : Args) (w : World) :
    ((runConn c a w).calls.length ≤ 2 ∧ (runConn c a w).writes.length ≤ 2) ∧
    (c ≠ .POSTAttachment → (runConn c a w).calls.length ≤ 1) ∧
    (c ≠ .createJiraTicket → (runConn c a w).writes.length ≤ 1) := by
  unfold runConn
  split
  · simp
  · exact connBody_bounds c a w

theorem invocation_call_and_write_bounds_witness :
    Conn.GETFromTable ≠ Conn.POSTAttachment ∧
    (runConn .GETFromTable yextArgs { outcome := .err netErr }).calls.length ≤ 1 ∧
    Conn.GETFromTable ≠ Conn.createJiraTicket ∧
    (runConn .GETFromTable yextArgs { outcome := .err netErr }).writes.length ≤ 1 :=
  ⟨by decide,
   (invocation_call_and_write_bounds .GETFromTable yextArgs
     { outcome := .err netErr }).2.1 (by decide),
   by decide,
   (invocation_call_and_write_bounds .GETFromTable yextArgs
     { outcome := .err netErr }).2.2 (by decide)⟩

/-- Valid arguments for the Jira summary connector. -/
def summaryArgs : Args :=
  { secret := some { username := some "u", password := some "p",
                     domain := some "jira.example.com" },
    ticket := some "T-1", contextStore := some "summary",
    stopOnError := some true }

/-- The mock issue response of the issue-summary claim: `key`,
`fields.status.name` and `fields.assignee.emailAddress` present, all
other projected source paths absent. -/
def mockIssue : JValue :=
  .jobj [("key", .jstr "T-1"),
         ("fields", .jobj [("status", .jobj [("name", .jstr "Open")]),
                           ("assignee", .jobj [("emailAddress", .jstr "a@b.com")])])]

/-- C8: on the mock issue the stored projection has `ticket = "T-1"`,
`status = "Open"`, `assignedTo = "a@b.com"`, and each projected field
whose source path is absent (`type`, `project`, `reportedBy`,
`resolution`, `comments`) maps to `null`; the call resolves. -/
theorem getTicketSummary_mock_projection :
    (runConn .getTicketSummary summaryArgs { outcome := .ok mockIssue }).writes =
      [⟨.ctxAdd, some "summary",
        .jobj [("ticket", .jstr "T-1"), ("type", .jnull), ("project", .jnull),
               ("status", .jstr "Open"), ("assignedTo", .jstr "a@b.com"),
               ("reportedBy", .jnull), ("resolution", .jnull), ("comments", .jnull)]⟩] ∧
    (runConn .getTicketSummary summaryArgs { outcome := .ok mockIssue }).result =
      .resolved :=
  ⟨rfl, rfl⟩

/-- Arguments for `GetEntity` that are valid except that `stopOnError`
is left undefined. -/
def yextArgsNoFlag : Args :=
  { secret := some { api_key := some "key123" }, entity := some "Events",
    api_version := some "20190424", store := some "yextResult" }

/-- C5: the claim fails on the code.  `GetEntity` performs no
`stopOnError` check: with the flag undefined the invocation passes
validation, issues its HTTP request and resolves normally. -/
theorem getEntity_accepts_undefined_stopOnError :
    (runConn .GetEntity yextArgsNoFlag { outcome := .ok (.jobj []) }).calls.length = 1 ∧
    (runConn .GetEntity yextArgsNoFlag { outcome := .ok (.jobj []) }).result = .resolved :=
  ⟨rfl, rfl⟩

/-- Valid arguments for `extractTicket`. -/
def extractArgs : Args := { contextStore := some "ticket", stopOnError := some false }

/-- C7: the claim fails on the code.  The pattern `[a-zA-Z]+-\d+` also
accepts a lowercase prefix: on input text `"abc-123"` the store
receives `"abc-123"` (not the sentinel), although `"abc-123"` is not an
uppercase-prefixed token. -/
theorem extractTicket_accepts_lowercase_prefix :
    (runConn .extractTicket extractArgs
      { outcome := .ok .jundefined, inputText := some "abc-123" }).writes =
      [⟨.ctxAdd, some "ticket", .jstr "abc-123"⟩] ∧
    specUppercaseToken "abc-123".toList = false ∧
    ("abc-123" : String) ≠ "No ticket found" :=
  ⟨rfl, rfl, by decide⟩

/-- A successful mock world used by several witnesses. -/
def wOk : World := { outcome := .ok (.jobj []) }

/-- C4: for every connector, whenever a field its validation sequence
declares required is missing or falsy (including the explicit
`stopOnError === undefined` checks), the invocation rejects immediately
with that check's descriptive message naming the field, issues no HTTP
request and makes no write, whatever the rest of the arguments — in
particular whatever `stopOnError` holds. -/
theorem missing_required_field_rejects_before_network
    (c : Conn) (a : Args) (w : World) (h : requiredFalsy c a = true) :
    (runConn c a w).calls = [] ∧ (runConn c a w).writes = [] ∧
    ∃ m, firstFail (checks c a) = some m ∧
      (runConn c a w).result = .rejected (.jstr m) :=
  validation_rejects c a w h

theorem missing_required_field_rejects_before_network_witness :
    requiredFalsy .spellCheck { stopOnError := some false } = true ∧
    ((runConn .spellCheck { stopOnError := some false } wOk).calls = [] ∧
     (runConn .spellCheck { stopOnError := some false } wOk).writes = [] ∧
     ∃ m, firstFail (checks .spellCheck { stopOnError := some false }) = some m ∧
       (runConn .spellCheck { stopOnError := some false } wOk).result =
         .rejected (.jstr m)) :=
  ⟨rfl, missing_required_field_rejects_before_network .spellCheck
    { stopOnError := some false } wOk rfl⟩

/-- C5 (amended): the connectors whose validation does check the flag —
the Jira-file connectors and the ServiceNow table/attachment
connectors — fail with a validation error, before any network request,
when `stopOnError` is left undefined; the Yext `GetEntity`,
cognitive-text, Bing-search and translator connectors have no such
check and proceed to the network call (see the counterexample). -/
theorem stopOnError_checked_only_by_checking_connectors
    (c : Conn) (a : Args) (w : World)
    (hc : checksStopOnError c = true) (hso : a.stopOnError = none) :
    (runConn c a w).calls = [] ∧ (runConn c a w).writes = [] ∧
    ∃ m, (runConn c a w).result = .rejected (.jstr m) := by
  have hreq : requiredFalsy c a = true := by
    cases c <;> simp [checksStopOnError] at hc <;>
      simp [requiredFalsy, checks, validateArgsChecks, jiraSecretFieldChecks,
        snowSecretFieldChecks, hso]
  obtain ⟨h1, h2, m, -, h3⟩ := validation_rejects c a w hreq
  exact ⟨h1, h2, m, h3⟩

/-- ServiceNow table arguments that are valid except for the undefined
`stopOnError` flag. -/
def tableArgsNoFlag : Args :=
  { secret := some { username := some "u", password := some "p",
                     sInstance := some "https://now.example.com" },
    tableName := some "incident", store := some "incidents" }

theorem stopOnError_checked_only_by_checking_connectors_witness :
    checksStopOnError .GETFromTable = true ∧
    tableArgsNoFlag.stopOnError = none ∧
    ((runConn .GETFromTable tableArgsNoFlag wOk).calls = [] ∧
     (runConn .GETFromTable tableArgsNoFlag wOk).writes = [] ∧
     ∃ m, (runConn .GETFromTable tableArgsNoFlag wOk).result = .rejected (.jstr m)) :=
  ⟨rfl, rfl, stopOnError_checked_only_by_checking_connectors .GETFromTable
    tableArgsNoFlag wOk rfl rfl⟩

/-- C6: for `extractTicket` with valid arguments and defined input
text, the connector issues no HTTP request; when the first
`[a-zA-Z]+-\d+` match of the text is `"ABC-123"` the configured store
receives exactly the string `"ABC-123"` and the call resolves; when no
letters-hyphen-digits substring occurs in the text at all, the store
receives the literal string `"No ticket found"` and the call resolves. -/
theorem extractTicket_stores_first_match_or_sentinel
    (a : Args) (w : World) (t : String)
    (hv : firstFail (checks .extractTicket a) = none)
    (ht : w.inputText = some t) :
    (runConn .extractTicket a w).calls = [] ∧
    (firstMatch t.toList = some "ABC-123".toList →
      (runConn .extractTicket a w).writes =
        [⟨.ctxAdd, a.contextStore, .jstr "ABC-123"⟩] ∧
      (runConn .extractTicket a w).result = .resolved) ∧
    ((∀ u, occursIn u t.toList → ¬ TicketShapeL u) →
      (runConn .extractTicket a w).writes =
        [⟨.ctxAdd, a.contextStore, .jstr "No ticket found"⟩] ∧
      (runConn .extractTicket a w).result = .resolved) := by
  have hrun : runConn .extractTicket a w = extractTicketBody a w := by
    simp [runConn, hv, connBody]
  cases hm : firstMatch t.toList with
  | some m =>
    have hm2 : firstMatch t.data = some m := hm
    refine ⟨by simp [hrun, extractTicketBody, ht, hm2], ?_, ?_⟩
    · intro hsome
      simp only [Option.some.injEq] at hsome
      subst hsome
      constructor
      · simp [hrun, extractTicketBody, ht, hm2]
      · simp [hrun, extractTicketBody, ht, hm2]
    · intro hno
      obtain ⟨hsh, hocc⟩ := firstMatch_sound _ _ hm
      exact absurd hsh (hno m hocc)
  | none =>
    have hm2 : firstMatch t.data = none := hm
    refine ⟨by simp [hrun, extractTicketBody, ht, hm2], ?_, ?_⟩
    · intro hsome
      exact absurd hsome (by simp)
    · intro hno
      constructor
      · simp [hrun, extractTicketBody, ht, hm2]
      · simp [hrun, extractTicketBody, ht, hm2]

theorem extractTicket_stores_first_match_or_sentinel_witness :
    firstFail (checks .extractTicket extractArgs) = none ∧
    firstMatch "fix ABC-123 now".toList = some "ABC-123".toList ∧
    ((runConn .extractTicket extractArgs
        { outcome := .ok .jundefined, inputText := some "fix ABC-123 now" }).writes =
      [⟨.ctxAdd, extractArgs.contextStore, .jstr "ABC-123"⟩] ∧
     (runConn .extractTicket extractArgs
        { outcome := .ok .jundefined, inputText := some "fix ABC-123 now" }).result =
      .resolved) :=
  ⟨rfl, by decide,
   (extractTicket_stores_first_match_or_sentinel extractArgs
      { outcome := .ok .jundefined, inputText := some "fix ABC-123 now" }
      "fix ABC-123 now" rfl rfl).2.1 (by decide)⟩

/-- C7 (amended): the extractor matches tokens with a letter prefix of
either case (not only uppercase): with valid arguments and defined
input text, either the store receives the first match, a nonempty
letters-hyphen-digits token (letters upper- or lowercase) occurring as
a substring of the text, or no such token occurs in the text and the
store receives the sentinel string `"No ticket found"`. -/
theorem extractTicket_match_characterization
    (a : Args) (w : World) (t : String)
    (hv : firstFail (checks .extractTicket a) = none)
    (ht : w.inputText = some t) :
    (∃ m, firstMatch t.toList = some m ∧ TicketShapeL m ∧ occursIn m t.toList ∧
      (runConn .extractTicket a w).writes =
        [⟨.ctxAdd, a.contextStore, .jstr (String.mk m)⟩]) ∨
    ((∀ u, occursIn u t.toList → ¬ TicketShapeL u) ∧
      (runConn .extractTicket a w).writes =
        [⟨.ctxAdd, a.contextStore, .jstr "No ticket found"⟩]) := by
  have hrun : runConn .extractTicket a w = extractTicketBody a w := by
    simp [runConn, hv, connBody]
  cases hm : firstMatch t.toList with
  | some m =>
    have hm2 : firstMatch t.data = some m := hm
    obtain ⟨hsh, hocc⟩ := firstMatch_sound _ _ hm
    refine Or.inl ⟨m, rfl, hsh, hocc, ?_⟩
    simp [hrun, extractTicketBody, ht, hm2]
  | none =>
    have hm2 : firstMatch t.data = none := hm
    refine Or.inr ⟨?_, by simp [hrun, extractTicketBody, ht, hm2]⟩
    intro u hocc hsh
    exact firstMatch_complete t.toList u hsh hocc hm

theorem extractTicket_match_characterization_witness :
    firstFail (checks .extractTicket extractArgs) = none ∧
    ((∃ m, firstMatch "see sb-77 ok".toList = some m ∧ TicketShapeL m ∧
        occursIn m "see sb-77 ok".toList ∧
        (runConn .extractTicket extractArgs
          { outcome := .ok .jundefined, inputText := some "see sb-77 ok" }).writes =
          [⟨.ctxAdd, extractArgs.contextStore, .jstr (String.mk m)⟩]) ∨
     ((∀ u, occursIn u "see sb-77 ok".toList → ¬ TicketShapeL u) ∧
      (runConn .extractTicket extractArgs
        { outcome := .ok .jundefined, inputText := some "see sb-77 ok" }).writes =
        [⟨.ctxAdd, extractArgs.contextStore, .jstr "No ticket found"⟩])) :=
  ⟨rfl, extractTicket_match_characterization extractArgs
    { outcome := .ok .jundefined, inputText := some "see sb-77 ok" }
    "see sb-77 ok" rfl rfl⟩

/-- C9: for `GETFromTable` with passing validation and a successful
(2xx) response whose `data.result` is an array, the configured store
receives exactly that array unmodified and the call resolves; exactly
one request is issued, whose params object always carries the
`sysparm_limit` and `caller_id` keys and carries `assigned_to` whenever
that argument is provided (truthy). -/
theorem getFromTable_stores_result_and_query_params
    (a : Args) (w : World) (d : JValue) (rows : List JValue)
    (hv : firstFail (checks .GETFromTable a) = none)
    (ho : w.outcome = .ok d)
    (hr : jGet d "result" = .jarr rows) :
    (runConn .GETFromTable a w).writes = [⟨.ctxAdd, a.store, .jarr rows⟩] ∧
    (runConn .GETFromTable a w).result = .resolved ∧
    (runConn .GETFromTable a w).calls = [getFromTableReq a] ∧
    "sysparm_limit" ∈ (getFromTableReq a).params.map Prod.fst ∧
    "caller_id" ∈ (getFromTableReq a).params.map Prod.fst ∧
    (oTruthy a.assigned_to = true →
      "assigned_to" ∈ (getFromTableReq a).params.map Prod.fst) := by
  refine ⟨?_, ?_, ?_, ?_, ?_, ?_⟩
  · simp [runConn, hv, connBody, GETFromTableBody, ho, hr]
  · simp [runConn, hv, connBody, GETFromTableBody, ho]
  · simp [runConn, hv, connBody, GETFromTableBody, ho]
  · simp [getFromTableReq]
  · simp [getFromTableReq]
  · intro hat
    simp [getFromTableReq, hat]

/-- Valid `GETFromTable` arguments with `assigned_to` provided. -/
def tableArgs : Args :=
  { secret := some { username := some "u", password := some "p",
                     sInstance := some "https://now.example.com" },
    tableName := some "incident", limit := some (.jnum 20),
    caller_id := some "alice", assigned_to := some "bob",
    store := some "incidents", stopOnError := some true }

theorem getFromTable_stores_result_and_query_params_witness :
    firstFail (checks .GETFromTable tableArgs) = none ∧
    oTruthy tableArgs.assigned_to = true ∧
    ((runConn .GETFromTable tableArgs
        { outcome := .ok (.jobj [("result", .jarr [.jobj [("number", .jstr "INC1")]])]) }).writes =
      [⟨.ctxAdd, tableArgs.store, .jarr [.jobj [("number", .jstr "INC1")]]⟩] ∧
     "assigned_to" ∈ (getFromTableReq tableArgs).params.map Prod.fst) :=
  ⟨rfl, rfl,
   (getFromTable_stores_result_and_query_params tableArgs
      { outcome := .ok (.jobj [("result", .jarr [.jobj [("number", .jstr "INC1")]])]) }
      (.jobj [("result", .jarr [.jobj [("number", .jstr "INC1")]])])
      [.jobj [("number", .jstr "INC1")]] rfl rfl rfl).1,
   (getFromTable_stores_result_and_query_params tableArgs
      { outcome := .ok (.jobj [("result", .jarr [.jobj [("number", .jstr "INC1")]])]) }
      (.jobj [("result", .jarr [.jobj [("number", .jstr "INC1")]])])
      [.jobj [("number", .jstr "INC1")]] rfl rfl rfl).2.2.2.2.2 rfl⟩

/-- C10: the Bing news and image connectors define no error branch at
all: with passing validation, on a transport-level error the returned
promise never settles and no store write occurs; and the whole
invocation is independent of the `stopOnError` argument, which neither
connector ever reads. -/
theorem bing_news_image_no_error_branch
    (a : Args) (w : World) (e : JValue)
    (hn : firstFail (checks .bingNewsSearch a) = none)
    (hi : firstFail (checks .bingImageSearch a) = none)
    (ho : w.outcome = .err e) :
    (runConn .bingNewsSearch a w).result = .pending ∧
    (runConn .bingNewsSearch a w).writes = [] ∧
    (runConn .bingImageSearch a w).result = .pending ∧
    (runConn .bingImageSearch a w).writes = [] ∧
    (∀ so1 so2, runConn .bingNewsSearch { a with stopOnError := so1 } w =
                runConn .bingNewsSearch { a with stopOnError := so2 } w) ∧
    (∀ so1 so2, runConn .bingImageSearch { a with stopOnError := so1 } w =
                runConn .bingImageSearch { a with stopOnError := so2 } w) :=
  ⟨by simp [runConn, hn, connBody, bingNewsSearchBody, ho],
   by simp [runConn, hn, connBody, bingNewsSearchBody, ho],
   by simp [runConn, hi, connBody, bingImageSearchBody, ho],
   by simp [runConn, hi, connBody, bingImageSearchBody, ho],
   fun so1 so2 => rfl, fun so1 so2 => rfl⟩

theorem bing_news_image_no_error_branch_witness :
    firstFail (checks .bingNewsSearch bingNewsArgs) = none ∧
    firstFail (checks .bingImageSearch bingNewsArgs) = none ∧
    ((runConn .bingNewsSearch bingNewsArgs { outcome := .err netErr }).result = .pending ∧
     (runConn .bingImageSearch bingNewsArgs { outcome := .err netErr }).writes = []) :=
  ⟨rfl, rfl,
   (bing_news_image_no_error_branch bingNewsArgs { outcome := .err netErr } netErr
     rfl rfl rfl).1,
   (bing_news_image_no_error_branch bingNewsArgs { outcome := .err netErr } netErr
     rfl rfl rfl).2.2.2.1⟩
